import Mathlib

/-!
Verification development for the dingpiao timed-booking system.

Shallow embedding of the parts of the source relevant to the scheduler,
task data model, pre-warm/fire timing, retry policy, failure classifier,
cancellation and statistics:
  - models.py        (Passenger, TicketPassenger, TrainInfo, TicketInfo)
  - timed_booking.py (BookingTask, TimedBooking)
  - error_handler.py (ErrorType, UserChoice, ErrorHandler)

Modelling conventions:
  - Python `datetime` values are modelled as integers (an absolute number of
    microsecond-like ticks); `timedelta(minutes=5)` and `timedelta(days=30)`
    become the constants `minutes5` and `days30`.  `datetime.isoformat` /
    `fromisoformat` form an exact bijection on datetimes, so serialization of
    a time is modelled as the identity on the integer (the string rendering
    `isoformat` is used only where the code compares identifier strings).
  - Python dicts produced by the various `to_dict` methods are modelled as
    Lean structures whose fields mirror exactly the keys the code emits; a
    key that the code emits only conditionally (`bunk_type`) is an `Option`.
  - Fallible constructors (a `__post_init__` that raises, an `Enum(value)`
    lookup that raises) return `Option`.
  - `random.uniform(lo, hi)` is modelled by recording the pair `(lo, hi)` of
    bounds (in seconds, as rationals) and, where a sampled value is needed,
    by the function `uniformSample lo hi u = lo + u * (hi - lo)` for an
    arbitrary sample `u ∈ [0, 1]`.
-/

/-! ## String helpers (Python `str.lower`, `in`, truthiness of `strip()`) -/

/-- `startsWithL n h` is true iff `n` is a prefix of the character list `h`. -/
def startsWithL : List Char → List Char → Bool
  | [], _ => true
  | _ :: _, [] => false
  | n :: ns, h :: hs => n == h && startsWithL ns hs

/-- `containsSub n h` is true iff `n` occurs contiguously inside `h`
(Python `n in h` on strings). -/
def containsSub (needle : List Char) : List Char → Bool
  | [] => startsWithL needle []
  | h :: hs => startsWithL needle (h :: hs) || containsSub needle hs

/-- Python `needle in hay` for strings. -/
def substrOf (needle hay : String) : Bool := containsSub needle.toList hay.toList

/-- Python `s.lower()`; the keywords the classifier uses are ASCII or Chinese,
for which per-character lowering agrees with Python. -/
def lowerStr (s : String) : String := String.mk (s.toList.map Char.toLower)

/-- Python `not s or not s.strip()` — true iff `s` is empty or whitespace-only. -/
def isBlank (s : String) : Bool := s.toList.all Char.isWhitespace

/-- Model of `datetime.isoformat()` used as a task-identifier string:
an injective rendering of the time value. -/
def isoformat (n : Int) : String := toString n

/-- `timedelta(minutes=5)` in ticks (one tick = one microsecond). -/
def minutes5 : Int := 5 * 60 * 1000000

/-- `timedelta(days=30)` in ticks. -/
def days30 : Int := 30 * 24 * 60 * 60 * 1000000

/-! ## models.py -/

/-- `SeatType` enum of models.py. -/
inductive SeatType
  | SECOND_CLASS | FIRST_CLASS | BUSINESS_CLASS | HARD_SEAT | SOFT_SEAT
  | NO_SEAT | HARD_SLEEPER | SOFT_SLEEPER | DYNAMIC_SLEEPER | FIRST_SLEEPER
  | SECOND_SLEEPER | ADVANCED_SOFT_SLEEPER
deriving DecidableEq, Repr

/-- The `.value` string of each `SeatType` member. -/
def SeatType.value : SeatType → String
  | .SECOND_CLASS => "二等座"
  | .FIRST_CLASS => "一等座"
  | .BUSINESS_CLASS => "商务座"
  | .HARD_SEAT => "硬座"
  | .SOFT_SEAT => "软座"
  | .NO_SEAT => "无座"
  | .HARD_SLEEPER => "硬卧"
  | .SOFT_SLEEPER => "软卧"
  | .DYNAMIC_SLEEPER => "动卧"
  | .FIRST_SLEEPER => "一等卧"
  | .SECOND_SLEEPER => "二等卧"
  | .ADVANCED_SOFT_SLEEPER => "高级软卧"

/-- Python `SeatType(value)`: look a member up by its value, raising
(`none`) when no member has that value. -/
def SeatType.fromValue (s : String) : Option SeatType :=
  if s = "二等座" then some .SECOND_CLASS
  else if s = "一等座" then some .FIRST_CLASS
  else if s = "商务座" then some .BUSINESS_CLASS
  else if s = "硬座" then some .HARD_SEAT
  else if s = "软座" then some .SOFT_SEAT
  else if s = "无座" then some .NO_SEAT
  else if s = "硬卧" then some .HARD_SLEEPER
  else if s = "软卧" then some .SOFT_SLEEPER
  else if s = "动卧" then some .DYNAMIC_SLEEPER
  else if s = "一等卧" then some .FIRST_SLEEPER
  else if s = "二等卧" then some .SECOND_SLEEPER
  else if s = "高级软卧" then some .ADVANCED_SOFT_SLEEPER
  else none

/-- `BunkType` enum of models.py. -/
inductive BunkType
  | UPPER_BUNK | MIDDLE_BUNK | LOWER_BUNK | NO_BUNK
deriving DecidableEq, Repr

/-- The `.value` string of each `BunkType` member. -/
def BunkType.value : BunkType → String
  | .UPPER_BUNK => "上铺"
  | .MIDDLE_BUNK => "中铺"
  | .LOWER_BUNK => "下铺"
  | .NO_BUNK => "无"

/-- Python `BunkType(value)`. -/
def BunkType.fromValue (s : String) : Option BunkType :=
  if s = "上铺" then some .UPPER_BUNK
  else if s = "中铺" then some .MIDDLE_BUNK
  else if s = "下铺" then some .LOWER_BUNK
  else if s = "无" then some .NO_BUNK
  else none

/-- The `Passenger` dataclass of models.py. -/
structure Passenger where
  name : String
  id_number : String
  passenger_type : String
deriving DecidableEq, Repr

/-- `Passenger.__init__` including `__post_init__`: raises (`none`) when the
name is empty or whitespace, and replaces a blank `passenger_type` by the
default "成人". -/
def Passenger.make (name id_number passenger_type : String) : Option Passenger :=
  if isBlank name then none
  else some { name := name, id_number := id_number,
              passenger_type := if isBlank passenger_type then "成人" else passenger_type }

/-- The `TicketPassenger` dataclass of models.py. -/
structure TicketPassenger where
  passenger : Passenger
  seat_type : SeatType
  bunk_type : Option BunkType
  ticket_type : String
deriving DecidableEq, Repr

/-- `TicketPassenger.__init__` including `__post_init__`: `seat_type` is an
enum member (always truthy, so the seat-type default never fires), and a
blank `ticket_type` is replaced by the default "成人票". -/
def TicketPassenger.make (passenger : Passenger) (seat_type : SeatType)
    (bunk_type : Option BunkType) (ticket_type : String) : TicketPassenger :=
  { passenger := passenger, seat_type := seat_type, bunk_type := bunk_type,
    ticket_type := if isBlank ticket_type then "成人票" else ticket_type }

/-- The dict emitted by `TicketPassenger.to_dict`: the passenger fields are
flattened, the seat type is serialized by value, and the `bunk_type` key is
present only when the bunk type is set. -/
structure TicketPassengerDict where
  name : String
  id_number : String
  passenger_type : String
  ticket_type : String
  seat_type : String
  bunk_type : Option String
deriving DecidableEq, Repr

/-- `TicketPassenger.to_dict`. -/
def TicketPassenger.to_dict (tp : TicketPassenger) : TicketPassengerDict :=
  { name := tp.passenger.name
    id_number := tp.passenger.id_number
    passenger_type := tp.passenger.passenger_type
    ticket_type := tp.ticket_type
    seat_type := tp.seat_type.value
    bunk_type := tp.bunk_type.map BunkType.value }

/-- `TicketPassenger.from_dict`: rebuilds the `Passenger` (whose constructor
may raise), looks the enums up by value (which may raise), and re-runs the
`TicketPassenger` constructor defaults.  The `data.get(..., default)` calls
only matter for absent keys, which `to_dict` output never has except
`bunk_type`. -/
def TicketPassenger.from_dict (d : TicketPassengerDict) : Option TicketPassenger := do
  let p ← Passenger.make d.name d.id_number d.passenger_type
  let st ← SeatType.fromValue d.seat_type
  let bt ← match d.bunk_type with
    | none => some none
    | some v => (BunkType.fromValue v).map some
  some (TicketPassenger.make p st bt d.ticket_type)

/-- The `TrainInfo` dataclass of models.py. -/
structure TrainInfo where
  train_number : String
  departure_station : String
  arrival_station : String
  departure_time : String
  arrival_time : String
  duration : String
  date : String
deriving DecidableEq, Repr

/-- The dict emitted by `TrainInfo.to_dict` (all seven string fields). -/
structure TrainInfoDict where
  train_number : String
  departure_station : String
  arrival_station : String
  departure_time : String
  arrival_time : String
  duration : String
  date : String
deriving DecidableEq, Repr

/-- `TrainInfo.to_dict`. -/
def TrainInfo.to_dict (t : TrainInfo) : TrainInfoDict :=
  { train_number := t.train_number, departure_station := t.departure_station,
    arrival_station := t.arrival_station, departure_time := t.departure_time,
    arrival_time := t.arrival_time, duration := t.duration, date := t.date }

/-- `TrainInfo.from_dict` (`cls(**data)`). -/
def TrainInfo.from_dict (d : TrainInfoDict) : TrainInfo :=
  { train_number := d.train_number, departure_station := d.departure_station,
    arrival_station := d.arrival_station, departure_time := d.departure_time,
    arrival_time := d.arrival_time, duration := d.duration, date := d.date }

/-- The `TicketInfo` dataclass of models.py.  Its `__post_init__` only checks
that `train_info` is truthy, which a dataclass instance always is; in
particular an empty `ticket_passengers` list is accepted. -/
structure TicketInfo where
  train_info : TrainInfo
  ticket_passengers : List TicketPassenger
deriving DecidableEq, Repr

/-- The dict emitted by `TicketInfo.to_dict` (keys `train_info`, `passengers`). -/
structure TicketInfoDict where
  train_info : TrainInfoDict
  passengers : List TicketPassengerDict
deriving DecidableEq, Repr

/-- `TicketInfo.to_dict`. -/
def TicketInfo.to_dict (ti : TicketInfo) : TicketInfoDict :=
  { train_info := ti.train_info.to_dict
    passengers := ti.ticket_passengers.map TicketPassenger.to_dict }

/-- `TicketInfo.from_dict`. -/
def TicketInfo.from_dict (d : TicketInfoDict) : Option TicketInfo := do
  let ps ← d.passengers.mapM TicketPassenger.from_dict
  some { train_info := TrainInfo.from_dict d.train_info, ticket_passengers := ps }

/-! ## timed_booking.py — BookingTask -/

/-- The `BookingTask` object of timed_booking.py, with all mutable
bookkeeping fields. -/
structure BookingTask where
  ticket_info : TicketInfo
  start_time : Int
  pre_search_start_time : Int
  max_retries : Int
  priority : Int
  created_at : Int
  status : String
  error_message : String
  retry_count : Int
  result : Option String
  search_started : Bool
  booking_attempted : Bool
deriving DecidableEq, Repr

/-- `BookingTask.__init__`: `pre_search_start_time` is derived as
`start_time - timedelta(minutes=5)`, `created_at` is the current time, and
the bookkeeping fields get their initial values. -/
def BookingTask.init (ticket_info : TicketInfo) (start_time : Int)
    (max_retries : Int) (priority : Int) (now : Int) : BookingTask :=
  { ticket_info := ticket_info
    start_time := start_time
    pre_search_start_time := start_time - minutes5
    max_retries := max_retries
    priority := priority
    created_at := now
    status := "pending"
    error_message := ""
    retry_count := 0
    result := none
    search_started := false
    booking_attempted := false }

/-- The flat record emitted by `BookingTask.to_dict` (datetimes serialized
via `isoformat`, modelled as the underlying tick count). -/
structure BookingTaskDict where
  ticket_info : TicketInfoDict
  start_time : Int
  pre_search_start_time : Int
  max_retries : Int
  priority : Int
  created_at : Int
  status : String
  error_message : String
  retry_count : Int
  result : Option String
  search_started : Bool
  booking_attempted : Bool
deriving DecidableEq, Repr

/-- `BookingTask.to_dict`. -/
def BookingTask.to_dict (t : BookingTask) : BookingTaskDict :=
  { ticket_info := t.ticket_info.to_dict
    start_time := t.start_time
    pre_search_start_time := t.pre_search_start_time
    max_retries := t.max_retries
    priority := t.priority
    created_at := t.created_at
    status := t.status
    error_message := t.error_message
    retry_count := t.retry_count
    result := t.result
    search_started := t.search_started
    booking_attempted := t.booking_attempted }

/-- `BookingTask.from_dict`: rebuilds the `TicketInfo`, runs the constructor
(which recomputes `pre_search_start_time` from `start_time` and stamps
`created_at := now`), then restores every persisted mutable field.  The
serialized `pre_search_start_time` is never read back. -/
def BookingTask.from_dict (d : BookingTaskDict) (now : Int) : Option BookingTask := do
  let ti ← TicketInfo.from_dict d.ticket_info
  let task := BookingTask.init ti d.start_time d.max_retries d.priority now
  some { task with
    created_at := d.created_at
    status := d.status
    error_message := d.error_message
    retry_count := d.retry_count
    result := d.result
    search_started := d.search_started
    booking_attempted := d.booking_attempted }

/-! ## timed_booking.py — TimedBooking scheduler operations -/

/-- The sort key ordering of `TimedBooking.add_task`
(`key=lambda t: (-t.priority, t.start_time)`), as the boolean total preorder
a stable sort consumes. -/
def taskLe (a b : BookingTask) : Bool :=
  (b.priority < a.priority) || (a.priority == b.priority && a.start_time ≤ b.start_time)

/-- `TimedBooking.add_task`: constructs the task, appends it to the
collection, re-sorts by `(-priority, start_time)` (Python `list.sort` is a
stable merge sort), and returns `task.created_at.isoformat()` as the task
id.  No validation of any kind is performed and no failure path exists. -/
def add_task (tasks : List BookingTask) (ticket_info : TicketInfo)
    (start_time : Int) (max_retries : Int) (priority : Int) (now : Int) :
    List BookingTask × String :=
  let task := BookingTask.init ticket_info start_time max_retries priority now
  ((tasks ++ [task]).mergeSort taskLe, isoformat task.created_at)

/-- `TimedBooking.validate_task_time`: false when `start_time <= now` or
`start_time > now + timedelta(days=30)`, true otherwise.  It is a separate
public method; `add_task` does not call it (the interactive CLI does,
before calling `add_task`). -/
def validate_task_time (now start_time : Int) : Bool :=
  if start_time ≤ now then false
  else if start_time > now + days30 then false
  else true

/-- The status strings `TimedBooking.cancel_task` treats as cancellable
(`["pending", "searching", "booking", "running"]`). -/
def cancellableStatuses : List String := ["pending", "searching", "booking", "running"]

/-- The identifier match of `TimedBooking.cancel_task`: an identifier names a
task by train number or by `created_at.isoformat()`. -/
def matchesIdentifier (t : BookingTask) (ident : String) : Bool :=
  t.ticket_info.train_info.train_number == ident || isoformat t.created_at == ident

/-- `TimedBooking.cancel_task`: scan for the first task matching the
identifier; if one is found and its status is cancellable, set its status to
"cancelled" and return `True`; otherwise (no match, or the matched task is
terminal or already cancelled) change nothing and return `False`.  The body
is wrapped in a `try/except` returning `False`, so it never raises. -/
def cancel_task : List BookingTask → String → List BookingTask × Bool
  | [], _ => ([], false)
  | t :: ts, ident =>
    if matchesIdentifier t ident then
      if cancellableStatuses.contains t.status then
        ({ t with status := "cancelled" } :: ts, true)
      else
        (t :: ts, false)
    else
      let r := cancel_task ts ident
      (t :: r.1, r.2)

/-- The statistics snapshot `TimedBooking.get_statistics` returns (the
`auto_booking_status` sub-dict is an external collaborator's status and is
kept opaque as a string parameter). -/
structure Statistics where
  total_tasks : Nat
  pending_tasks : Nat
  searching_tasks : Nat
  booking_tasks : Nat
  running_tasks : Nat
  completed_tasks : Nat
  failed_tasks : Nat
  active_tasks : Nat
  scheduler_running : Bool
  auto_booking_status : String
deriving DecidableEq, Repr

/-- `TimedBooking.get_statistics`: `total_tasks` is the length of the task
list, and each per-state count is the length of the filter on one status
string.  No count for the "cancelled" status is produced. -/
def get_statistics (tasks : List BookingTask) (active_count : Nat)
    (running : Bool) (ab_status : String) : Statistics :=
  { total_tasks := tasks.length
    pending_tasks := (tasks.filter (fun t => t.status == "pending")).length
    searching_tasks := (tasks.filter (fun t => t.status == "searching")).length
    booking_tasks := (tasks.filter (fun t => t.status == "booking")).length
    running_tasks := (tasks.filter (fun t => t.status == "running")).length
    completed_tasks := (tasks.filter (fun t => t.status == "completed")).length
    failed_tasks := (tasks.filter (fun t => t.status == "failed")).length
    active_tasks := active_count
    scheduler_running := running
    auto_booking_status := ab_status }

/-! ## error_handler.py -/

/-- `ErrorType` enum of error_handler.py.  In the spec's vocabulary:
NETWORK=network, LOGIN=authentication, CAPTCHA=verification-challenge,
NO_TICKET=no-inventory, SEAT=attribute-conflict, PASSENGER=beneficiary-data,
SUBMIT=submission, PAYMENT=payment, SYSTEM=system, UNKNOWN=unknown. -/
inductive ErrorType
  | NETWORK_ERROR | LOGIN_ERROR | CAPTCHA_ERROR | NO_TICKET_ERROR | SEAT_ERROR
  | PASSENGER_ERROR | SUBMIT_ERROR | PAYMENT_ERROR | SYSTEM_ERROR | UNKNOWN_ERROR
deriving DecidableEq, Repr

/-- `UserChoice` enum of error_handler.py.  In the spec's vocabulary:
RETRY=retry, MANUAL_BOOKING=fall-back-to-manual, SKIP_TASK=skip-task,
CANCEL_ALL=abort-all, WAIT_AND_RETRY=wait-then-retry,
CHANGE_STRATEGY=change-strategy. -/
inductive UserChoice
  | RETRY | MANUAL_BOOKING | SKIP_TASK | CANCEL_ALL | WAIT_AND_RETRY | CHANGE_STRATEGY
deriving DecidableEq, Repr

/-- Keyword table of `ErrorHandler._analyze_error`, one list per branch, in
branch order. -/
def networkKeywords : List String := ["network", "connection", "timeout", "unreachable", "dns"]

/-- Keywords of the login-error branch. -/
def loginKeywords : List String := ["login", "authentication", "username", "password", "session"]

/-- Keywords of the captcha-error branch. -/
def captchaKeywords : List String := ["captcha", "verification", "code", "图片", "验证码"]

/-- Keywords of the no-ticket branch. -/
def noTicketKeywords : List String := ["no ticket", "sold out", "无票", "售完", "ticket not available"]

/-- Keywords of the seat-error branch. -/
def seatKeywords : List String := ["seat", "席次", "座位", "berth", "铺位"]

/-- Keywords of the passenger-error branch. -/
def passengerKeywords : List String := ["passenger", "乘客", "id card", "身份证", "name"]

/-- Keywords of the submit-error branch. -/
def submitKeywords : List String := ["submit", "提交", "order", "订单"]

/-- Keywords of the payment-error branch. -/
def paymentKeywords : List String := ["payment", "支付", "pay", "结算"]

/-- Keywords of the system-error branch. -/
def systemKeywords : List String := ["system", "server", "internal", "系统", "服务器", "内部错误"]

/-- Python `any(keyword in msg for keyword in ks)`. -/
def anyKeyword (ks : List String) (msg : String) : Bool := ks.any (fun k => substrOf k msg)

/-- `ErrorHandler._analyze_error`: lowercase the message, then run the
ordered keyword branches; the first branch whose keyword list matches wins,
and `UNKNOWN_ERROR` is the fallback. -/
def analyze_error (msg : String) : ErrorType :=
  let m := lowerStr msg
  if anyKeyword networkKeywords m then .NETWORK_ERROR
  else if anyKeyword loginKeywords m then .LOGIN_ERROR
  else if anyKeyword captchaKeywords m then .CAPTCHA_ERROR
  else if anyKeyword noTicketKeywords m then .NO_TICKET_ERROR
  else if anyKeyword seatKeywords m then .SEAT_ERROR
  else if anyKeyword passengerKeywords m then .PASSENGER_ERROR
  else if anyKeyword submitKeywords m then .SUBMIT_ERROR
  else if anyKeyword paymentKeywords m then .PAYMENT_ERROR
  else if anyKeyword systemKeywords m then .SYSTEM_ERROR
  else .UNKNOWN_ERROR

/-- The `ErrorHandler.default_strategies` table. -/
def default_strategies : ErrorType → UserChoice
  | .NETWORK_ERROR => .RETRY
  | .LOGIN_ERROR => .MANUAL_BOOKING
  | .CAPTCHA_ERROR => .MANUAL_BOOKING
  | .NO_TICKET_ERROR => .WAIT_AND_RETRY
  | .SEAT_ERROR => .CHANGE_STRATEGY
  | .PASSENGER_ERROR => .MANUAL_BOOKING
  | .SUBMIT_ERROR => .RETRY
  | .PAYMENT_ERROR => .MANUAL_BOOKING
  | .SYSTEM_ERROR => .CANCEL_ALL
  | .UNKNOWN_ERROR => .RETRY

/-- The `no_retry_types` list inside `ErrorHandler.should_retry`. -/
def noRetryTypes : List ErrorType :=
  [.LOGIN_ERROR, .CAPTCHA_ERROR, .PASSENGER_ERROR, .SYSTEM_ERROR]

/-- `ErrorHandler.should_retry`: false once `retry_count` reaches
`max_retry_count`, false for the four no-retry error types, true otherwise. -/
def should_retry (max_retry_count : Nat) (error_type : ErrorType) (retry_count : Nat) : Bool :=
  if max_retry_count ≤ retry_count then false
  else !(decide (error_type ∈ noRetryTypes))

/-! ## timed_booking.py — pre-warm monitoring iteration

One iteration of the `while current_time < pre_search_end_time` monitoring
loop inside `TimedBooking._execute_enhanced_booking`, as a function of the
remaining time `r = (pre_search_end_time - current_time).total_seconds()`
(a nonnegative float, modelled as a rational).  Python `r % n` on a
nonnegative float is `r - n * ⌊r / n⌋`. -/

/-- What one monitoring-loop iteration does at remaining time `r`: whether it
calls `auto_booking.search_tickets()` (a refresh), and how long it sleeps
(seconds). -/
structure MonitorStep where
  refreshes : Bool
  sleep : ℚ
deriving DecidableEq, Repr

/-- One iteration of the pre-warm monitoring loop of
`_execute_enhanced_booking` at remaining seconds `r`:
over 120s refresh when `r % 30 < 1` and sleep 0.1s; over 60s refresh when
`r % 15 < 1` and sleep 0.1s; over 10s refresh when `r % 5 < 1` and sleep
0.05s; in the final 10s, sleep 0.05s and refresh unconditionally while
`r > 3`, and only sleep 0.01s (no refresh) once `r ≤ 3`. -/
def monitorStep (r : ℚ) : MonitorStep :=
  if 120 < r then ⟨decide (r - 30 * (⌊r / 30⌋ : ℤ) < 1), 1/10⟩
  else if 60 < r then ⟨decide (r - 15 * (⌊r / 15⌋ : ℤ) < 1), 1/10⟩
  else if 10 < r then ⟨decide (r - 5 * (⌊r / 5⌋ : ℤ) < 1), 1/20⟩
  else if 3 < r then ⟨true, 1/20⟩
  else ⟨false, 1/100⟩

/-! ## timed_booking.py — the FIRING-stage retry loop

Model of the stage-3 retry loop of `TimedBooking._execute_enhanced_booking`
(`while task.retry_count < task.max_retries and task.status == "booking"`).
`AutoBooking.auto_book_ticket` wraps its whole body in `try/except` and
returns a bool, so one booking attempt never raises into the loop: its
outcome is either success (`none` below) or failure with the
`auto_booking.error_message` text (`some msg` below).  The loop is driven by
the list of successive attempt outcomes the booking agent produces. -/

/-- Observable actions of the firing-stage loop, in order. -/
inductive FireEvent
  | attempt (n : Nat)
  | refresh
  | wait (lo hi : ℚ)
deriving DecidableEq, Repr

/-- The post-loop task state and the emitted action trace. -/
structure FireResult where
  status : String
  result : Option String
  error_message : String
  retry_count : Nat
  events : List FireEvent
deriving DecidableEq, Repr

/-- The jittered backoff bounds (in seconds) chosen after the failed attempt
numbered `retry_count`: `random.uniform(0.1, 0.3)` after attempt 1,
`random.uniform(0.2, 0.5)` after attempt 2, `random.uniform(0.5, 1.0)`
afterwards. -/
def backoffBounds (retry_count : Nat) : ℚ × ℚ :=
  if retry_count = 1 then (1/10, 3/10)
  else if retry_count = 2 then (1/5, 1/2)
  else (1/2, 1)

/-- `random.uniform(lo, hi)` with sample `u ∈ [0, 1]`. -/
def uniformSample (lo hi u : ℚ) : ℚ := lo + u * (hi - lo)

/-- The firing-stage retry loop, starting from `retry_count` with status
"booking".  Each iteration increments `retry_count` and performs one
booking attempt; on success the task is completed with result "success"; on
failure with no attempts left the task fails carrying the agent's error
message; on failure with attempts remaining the loop re-runs
`search_tickets()` (a `refresh` event) and sleeps within the jittered
backoff bounds (a `wait` event) before the next attempt.  When the guard
`retry_count < max_retries` fails the loop exits with the status
unchanged (an empty outcome list models the loop being cut off there). -/
def fireLoop (max_retries : Nat) (retry_count : Nat) :
    List (Option String) → FireResult
  | [] => ⟨"booking", none, "", retry_count, []⟩
  | o :: rest =>
    if retry_count < max_retries then
      let rc := retry_count + 1
      match o with
      | none => ⟨"completed", some "success", "", rc, [.attempt rc]⟩
      | some msg =>
        if max_retries ≤ rc then
          ⟨"failed", none, msg, rc, [.attempt rc]⟩
        else
          let b := backoffBounds rc
          let r := fireLoop max_retries rc rest
          ⟨r.status, r.result, r.error_message, r.retry_count,
            .attempt rc :: .refresh :: .wait b.1 b.2 :: r.events⟩
    else ⟨"booking", none, "", retry_count, []⟩

/-- The trace the firing loop emits when the first `k` attempts fail and the
next one succeeds, starting from retry count `rc0`: attempts are numbered
consecutively and every failed attempt is followed by a `refresh`
(re-validation) and a jittered `wait` before the next attempt. -/
def retryTrace (rc0 : Nat) : Nat → List FireEvent
  | 0 => [.attempt (rc0 + 1)]
  | k + 1 =>
    .attempt (rc0 + 1) :: .refresh ::
      .wait (backoffBounds (rc0 + 1)).1 (backoffBounds (rc0 + 1)).2 :: retryTrace (rc0 + 1) k

/-! ## Concrete sample data (used by witnesses and counterexamples) -/

/-- A concrete train. -/
def sampleTrain : TrainInfo :=
  { train_number := "G123", departure_station := "北京南", arrival_station := "上海虹桥",
    departure_time := "08:00", arrival_time := "12:28", duration := "4小时28分",
    date := "2025-01-01" }

/-- A concrete valid ticket passenger. -/
def sampleTP : TicketPassenger :=
  { passenger := { name := "张三", id_number := "110101199001011234", passenger_type := "成人" },
    seat_type := .SECOND_CLASS, bunk_type := none, ticket_type := "成人票" }

/-- A concrete reservation request with one beneficiary assignment. -/
def sampleTicket : TicketInfo := { train_info := sampleTrain, ticket_passengers := [sampleTP] }

/-- A reservation request with zero beneficiary assignments (constructible:
`TicketInfo.__post_init__` only checks `train_info`). -/
def emptyTicket : TicketInfo := { train_info := sampleTrain, ticket_passengers := [] }

/-- A concrete task created at tick 100 for release tick 5000000. -/
def sampleTask : BookingTask := BookingTask.init sampleTicket 5000000 3 1 100

/-- A concrete already-completed task. -/
def doneTask : BookingTask := { BookingTask.init sampleTicket 4000000 3 0 100 with status := "completed" }

/-- A concrete pending task created at tick 200. -/
def pendingTask : BookingTask := BookingTask.init sampleTicket 6000000 3 1 200

/-! ## Helper lemmas -/

/-- `validate_task_time` is the strictly-future-and-within-30-days predicate. -/
theorem validate_task_time_iff (now st : Int) :
    validate_task_time now st = true ↔ now < st ∧ st ≤ now + days30 := by
  unfold validate_task_time
  split
  · constructor
    · intro h; cases h
    · intro h; omega
  · split
    · constructor
      · intro h; cases h
      · intro h; omega
    · constructor
      · intro _; omega
      · intro _; rfl

/-- `add_task` always inserts: the resulting collection is one longer. -/
theorem add_task_length (tasks : List BookingTask) (ti : TicketInfo)
    (st mr p now : Int) :
    (add_task tasks ti st mr p now).1.length = tasks.length + 1 := by
  simp [add_task, List.length_mergeSort]

/-- `add_task` always inserts: the new task is in the resulting collection. -/
theorem add_task_mem (tasks : List BookingTask) (ti : TicketInfo)
    (st mr p now : Int) :
    BookingTask.init ti st mr p now ∈ (add_task tasks ti st mr p now).1 := by
  simp [add_task, List.mem_mergeSort]

/-! ## Claim C1 -/

/-- C1 counterexample: with current time tick 1000000 and release time tick 0
(strictly in the past), `validate_task_time` classifies the time as invalid,
yet `add_task` on an empty collection does not fail and adds the task — the
collection grows from 0 to 1 tasks.  So `add_task` itself performs no
release-time validation and in the invalid case the task collection does
not stay unchanged. -/
theorem c1_counterexample :
    validate_task_time 1000000 0 = false ∧
    (add_task [] sampleTicket 0 3 0 1000000).1.length = 1 := by
  constructor
  · decide
  · simp [add_task, List.length_mergeSort]

/-- C1 (amended): `add_task` performs no validation at all — for every input
it inserts the new task (collection one longer, new task a member) and
returns its id; the release-time check lives in the separate public method
`validate_task_time`, which holds exactly when `now < release_time ≤ now +
30 days`, and which `add_task` never calls (the interactive caller invokes
it separately).  No `InvalidScheduleError` exists in the code. -/
theorem c1_add_task_never_validates (tasks : List BookingTask) (ti : TicketInfo)
    (st mr p now : Int) :
    (add_task tasks ti st mr p now).1.length = tasks.length + 1 ∧
    BookingTask.init ti st mr p now ∈ (add_task tasks ti st mr p now).1 ∧
    (validate_task_time now st = true ↔ now < st ∧ st ≤ now + days30) := by
  exact ⟨add_task_length tasks ti st mr p now, add_task_mem tasks ti st mr p now,
    validate_task_time_iff now st⟩

/-! ## Claim C8 -/

/-- C8 counterexample: a reservation request with zero beneficiary
assignments is not rejected before scheduling — `add_task` creates and
inserts a task for it (the collection grows from 0 to 1). -/
theorem c8_counterexample :
    emptyTicket.ticket_passengers = [] ∧
    (add_task [] emptyTicket 2000000 3 0 1000000).1.length = 1 := by
  constructor
  · rfl
  · simp [add_task, List.length_mergeSort]

/-- C8 (amended): the scheduling entry point performs no validation of the
beneficiary assignments: for every reservation request with zero
assignments, `add_task` nevertheless creates a task and inserts it into the
collection (`TicketInfo.__post_init__` accepts an empty assignment list). -/
theorem c8_empty_request_scheduled (tasks : List BookingTask) (ti : TicketInfo)
    (st mr p now : Int) (h : ti.ticket_passengers = []) :
    (add_task tasks ti st mr p now).1.length = tasks.length + 1 ∧
    BookingTask.init ti st mr p now ∈ (add_task tasks ti st mr p now).1 := by
  exact ⟨add_task_length tasks ti st mr p now, add_task_mem tasks ti st mr p now⟩

/-- C8 witness: the amended theorem applied to the concrete zero-assignment
request. -/
theorem c8_witness :
    (add_task [] emptyTicket 2500000 3 0 1500000).1.length = 0 + 1 ∧
    BookingTask.init emptyTicket 2500000 3 0 1500000 ∈
      (add_task [] emptyTicket 2500000 3 0 1500000).1 := by
  exact c8_empty_request_scheduled [] emptyTicket 2500000 3 0 1500000 (by rfl)

/-! ## Claim C10 -/

/-- One task contributes at most 1 to the sum of the six per-state counts of
`get_statistics` (the six status strings are pairwise distinct). -/
theorem status_contrib_le_one (s : String) :
    ((if s == "pending" then 1 else 0) + (if s == "searching" then 1 else 0) +
     (if s == "booking" then 1 else 0) + (if s == "running" then 1 else 0) +
     (if s == "completed" then 1 else 0) + (if s == "failed" then 1 else 0) : Nat) ≤ 1 := by
  by_cases h1 : s = "pending"
  · subst h1; decide
  by_cases h2 : s = "searching"
  · subst h2; decide
  by_cases h3 : s = "booking"
  · subst h3; decide
  by_cases h4 : s = "running"
  · subst h4; decide
  by_cases h5 : s = "completed"
  · subst h5; decide
  by_cases h6 : s = "failed"
  · subst h6; decide
  simp [beq_eq_false_iff_ne.mpr h1, beq_eq_false_iff_ne.mpr h2, beq_eq_false_iff_ne.mpr h3,
    beq_eq_false_iff_ne.mpr h4, beq_eq_false_iff_ne.mpr h5, beq_eq_false_iff_ne.mpr h6]

/-- A cancelled task contributes 0 to the six per-state counts. -/
theorem status_contrib_cancelled :
    ((if ("cancelled" : String) == "pending" then 1 else 0) +
     (if ("cancelled" : String) == "searching" then 1 else 0) +
     (if ("cancelled" : String) == "booking" then 1 else 0) +
     (if ("cancelled" : String) == "running" then 1 else 0) +
     (if ("cancelled" : String) == "completed" then 1 else 0) +
     (if ("cancelled" : String) == "failed" then 1 else 0) : Nat) = 0 := by
  decide

/-- The sum of the six per-state counts never exceeds the number of tasks. -/
theorem countP_six_le (tasks : List BookingTask) :
    tasks.countP (fun t => t.status == "pending") +
    tasks.countP (fun t => t.status == "searching") +
    tasks.countP (fun t => t.status == "booking") +
    tasks.countP (fun t => t.status == "running") +
    tasks.countP (fun t => t.status == "completed") +
    tasks.countP (fun t => t.status == "failed") ≤ tasks.length := by
  induction tasks with
  | nil => simp
  | cons t ts ih =>
    simp only [List.countP_cons, List.length_cons]
    have h := status_contrib_le_one t.status
    omega

/-- With a cancelled task present, the sum of the six per-state counts is
strictly below the number of tasks. -/
theorem countP_six_lt (tasks : List BookingTask)
    (h : ∃ t ∈ tasks, t.status = "cancelled") :
    tasks.countP (fun t => t.status == "pending") +
    tasks.countP (fun t => t.status == "searching") +
    tasks.countP (fun t => t.status == "booking") +
    tasks.countP (fun t => t.status == "running") +
    tasks.countP (fun t => t.status == "completed") +
    tasks.countP (fun t => t.status == "failed") < tasks.length := by
  induction tasks with
  | nil => simp at h
  | cons t ts ih =>
    simp only [List.countP_cons, List.length_cons]
    rcases h with ⟨u, hu, hcu⟩
    rcases List.mem_cons.mp hu with huh | hut
    · subst huh
      rw [hcu] at *
      have h0 := status_contrib_cancelled
      have hle := countP_six_le ts
      omega
    · have hlt := ih ⟨u, hut, hcu⟩
      have h1 := status_contrib_le_one t.status
      omega

/-- C10: in every statistics snapshot, `total_tasks` equals the length of the
task collection, and because `get_statistics` counts only the pending,
searching, booking, running, completed and failed states, any collection
containing a cancelled task has its six per-state counts summing to
strictly less than `total_tasks`. -/
theorem c10_statistics (tasks : List BookingTask) (ac : Nat) (run : Bool) (abs : String) :
    (get_statistics tasks ac run abs).total_tasks = tasks.length ∧
    ((∃ t ∈ tasks, t.status = "cancelled") →
      (get_statistics tasks ac run abs).pending_tasks +
      (get_statistics tasks ac run abs).searching_tasks +
      (get_statistics tasks ac run abs).booking_tasks +
      (get_statistics tasks ac run abs).running_tasks +
      (get_statistics tasks ac run abs).completed_tasks +
      (get_statistics tasks ac run abs).failed_tasks <
      (get_statistics tasks ac run abs).total_tasks) := by
  constructor
  · rfl
  · intro h
    simp only [get_statistics, ← List.countP_eq_length_filter]
    exact countP_six_lt tasks h

/-- C10 witness: a collection holding one completed and one cancelled task
has `total_tasks = 2` but per-state counts summing to 1. -/
theorem c10_witness :
    (get_statistics [doneTask, { pendingTask with status := "cancelled" }] 0 false "idle").total_tasks = 2 ∧
    (get_statistics [doneTask, { pendingTask with status := "cancelled" }] 0 false "idle").pending_tasks +
    (get_statistics [doneTask, { pendingTask with status := "cancelled" }] 0 false "idle").searching_tasks +
    (get_statistics [doneTask, { pendingTask with status := "cancelled" }] 0 false "idle").booking_tasks +
    (get_statistics [doneTask, { pendingTask with status := "cancelled" }] 0 false "idle").running_tasks +
    (get_statistics [doneTask, { pendingTask with status := "cancelled" }] 0 false "idle").completed_tasks +
    (get_statistics [doneTask, { pendingTask with status := "cancelled" }] 0 false "idle").failed_tasks <
    (get_statistics [doneTask, { pendingTask with status := "cancelled" }] 0 false "idle").total_tasks := by
  have h := c10_statistics [doneTask, { pendingTask with status := "cancelled" }] 0 false "idle"
  exact ⟨h.1.trans (by decide), h.2 ⟨{ pendingTask with status := "cancelled" }, by simp, rfl⟩⟩

/-! ## Claim C7 -/

/-- C7: `cancel_task` with any identifier: when no task matches the
identifier, the collection is unchanged and `False` is returned; when the
first matching task is in a cancellable (non-terminal) state, exactly that
task is marked "cancelled" and `True` is returned; when the first matching
task is terminal or already cancelled, the collection is unchanged and
`False` is returned.  The Python body is wrapped in `try/except` returning
`False`, and no statement in it raises, so the operation never raises. -/
theorem c7_cancel_task (tasks : List BookingTask) (ident : String) :
    (tasks.find? (fun t => matchesIdentifier t ident) = none →
      cancel_task tasks ident = (tasks, false)) ∧
    (∀ t, tasks.find? (fun t => matchesIdentifier t ident) = some t →
      (cancellableStatuses.contains t.status = true →
        ∃ l r, tasks = l ++ t :: r ∧ (∀ u ∈ l, matchesIdentifier u ident = false) ∧
          cancel_task tasks ident = (l ++ { t with status := "cancelled" } :: r, true)) ∧
      (cancellableStatuses.contains t.status = false →
        cancel_task tasks ident = (tasks, false))) := by
  induction tasks with
  | nil =>
    refine ⟨fun _ => rfl, fun t ht => ?_⟩
    simp at ht
  | cons a ts ih =>
    by_cases hm : matchesIdentifier a ident = true
    · have hfind : List.find? (fun t => matchesIdentifier t ident) (a :: ts) = some a := by
        simp [List.find?, hm]
      refine ⟨fun hn => ?_, fun t ht => ?_⟩
      · rw [hfind] at hn
        cases hn
      · rw [hfind] at ht
        cases ht
        constructor
        · intro hc
          refine ⟨[], ts, rfl, by simp, ?_⟩
          simp [cancel_task, hm, hc]
          simpa using hc
        · intro hc
          simp [cancel_task, hm, hc]
          simpa using hc
    · have hm' : matchesIdentifier a ident = false := by
        cases h : matchesIdentifier a ident
        · rfl
        · exact absurd h hm
      have hfind : List.find? (fun t => matchesIdentifier t ident) (a :: ts) =
          List.find? (fun t => matchesIdentifier t ident) ts := by
        simp [List.find?, hm']
      refine ⟨fun hn => ?_, fun t ht => ?_⟩
      · rw [hfind] at hn
        have := ih.1 hn
        simp [cancel_task, hm', this]
      · rw [hfind] at ht
        have iht := ih.2 t ht
        constructor
        · intro hc
          obtain ⟨l, r, hsplit, hl, hres⟩ := iht.1 hc
          refine ⟨a :: l, r, by simp [hsplit], ?_, ?_⟩
          · intro u hu
            rcases List.mem_cons.mp hu with h | h
            · subst h; exact hm'
            · exact hl u h
          · simp [cancel_task, hm', hres]
        · intro hc
          have := iht.2 hc
          simp [cancel_task, hm', this]

/-- C7 witness: in a collection holding a completed task and a pending task,
cancelling by the pending task's id marks exactly it cancelled and returns
`True` (the completed task, listed first, does not match the identifier
"200"). -/
theorem c7_witness :
    ∃ l r, [doneTask, pendingTask] = l ++ pendingTask :: r ∧
      (∀ u ∈ l, matchesIdentifier u "200" = false) ∧
      cancel_task [doneTask, pendingTask] "200" =
        (l ++ { pendingTask with status := "cancelled" } :: r, true) := by
  exact ((c7_cancel_task [doneTask, pendingTask] "200").2 pendingTask (by decide)).1 (by decide)

/-! ## Claim C6 -/

/-- A keyword list matches nobody iff each of its keywords is absent. -/
theorem anyKeyword_eq_false_iff (ks : List String) (m : String) :
    anyKeyword ks m = false ↔ ∀ k ∈ ks, substrOf k m = false := by
  simp [anyKeyword, List.any_eq_false]

/-- The concatenation of the nine keyword lists of `_analyze_error`. -/
def allKeywords : List String :=
  networkKeywords ++ loginKeywords ++ captchaKeywords ++ noTicketKeywords ++
    seatKeywords ++ passengerKeywords ++ submitKeywords ++ paymentKeywords ++ systemKeywords

/-- C6: the classifier is a total function given by ordered keyword
predicates with `UNKNOWN_ERROR` as fallback: a message classifies as
`UNKNOWN_ERROR` exactly when no keyword of any branch occurs in its
lowercase form; and the concrete message "session expired, please login"
classifies as `LOGIN_ERROR` (the authentication category), whose default
strategy is `MANUAL_BOOKING` (fall-back-to-manual). -/
theorem c6_classifier :
    analyze_error "session expired, please login" = ErrorType.LOGIN_ERROR ∧
    default_strategies ErrorType.LOGIN_ERROR = UserChoice.MANUAL_BOOKING ∧
    ∀ msg, analyze_error msg = ErrorType.UNKNOWN_ERROR ↔
      ∀ k ∈ allKeywords, substrOf k (lowerStr msg) = false := by
  refine ⟨by decide, rfl, fun msg => ?_⟩
  constructor
  · intro h k hk
    unfold analyze_error at h
    by_cases h1 : anyKeyword networkKeywords (lowerStr msg) = true
    · simp [h1] at h
    by_cases h2 : anyKeyword loginKeywords (lowerStr msg) = true
    · simp [h1, h2] at h
    by_cases h3 : anyKeyword captchaKeywords (lowerStr msg) = true
    · simp [h1, h2, h3] at h
    by_cases h4 : anyKeyword noTicketKeywords (lowerStr msg) = true
    · simp [h1, h2, h3, h4] at h
    by_cases h5 : anyKeyword seatKeywords (lowerStr msg) = true
    · simp [h1, h2, h3, h4, h5] at h
    by_cases h6 : anyKeyword passengerKeywords (lowerStr msg) = true
    · simp [h1, h2, h3, h4, h5, h6] at h
    by_cases h7 : anyKeyword submitKeywords (lowerStr msg) = true
    · simp [h1, h2, h3, h4, h5, h6, h7] at h
    by_cases h8 : anyKeyword paymentKeywords (lowerStr msg) = true
    · simp [h1, h2, h3, h4, h5, h6, h7, h8] at h
    by_cases h9 : anyKeyword systemKeywords (lowerStr msg) = true
    · simp [h1, h2, h3, h4, h5, h6, h7, h8, h9] at h
    have e1 := (anyKeyword_eq_false_iff networkKeywords (lowerStr msg)).mp (by simpa using h1)
    have e2 := (anyKeyword_eq_false_iff loginKeywords (lowerStr msg)).mp (by simpa using h2)
    have e3 := (anyKeyword_eq_false_iff captchaKeywords (lowerStr msg)).mp (by simpa using h3)
    have e4 := (anyKeyword_eq_false_iff noTicketKeywords (lowerStr msg)).mp (by simpa using h4)
    have e5 := (anyKeyword_eq_false_iff seatKeywords (lowerStr msg)).mp (by simpa using h5)
    have e6 := (anyKeyword_eq_false_iff passengerKeywords (lowerStr msg)).mp (by simpa using h6)
    have e7 := (anyKeyword_eq_false_iff submitKeywords (lowerStr msg)).mp (by simpa using h7)
    have e8 := (anyKeyword_eq_false_iff paymentKeywords (lowerStr msg)).mp (by simpa using h8)
    have e9 := (anyKeyword_eq_false_iff systemKeywords (lowerStr msg)).mp (by simpa using h9)
    simp only [allKeywords, List.mem_append] at hk
    rcases hk with ((((((((hk | hk) | hk) | hk) | hk) | hk) | hk) | hk) | hk)
    · exact e1 k hk
    · exact e2 k hk
    · exact e3 k hk
    · exact e4 k hk
    · exact e5 k hk
    · exact e6 k hk
    · exact e7 k hk
    · exact e8 k hk
    · exact e9 k hk
  · intro hall
    have sub : ∀ ks : List String, (∀ k ∈ ks, k ∈ allKeywords) →
        anyKeyword ks (lowerStr msg) = false := by
      intro ks hks
      exact (anyKeyword_eq_false_iff ks (lowerStr msg)).mpr fun k hk => hall k (hks k hk)
    have m1 := sub networkKeywords (by intro k hk; simp [allKeywords, List.mem_append]; tauto)
    have m2 := sub loginKeywords (by intro k hk; simp [allKeywords, List.mem_append]; tauto)
    have m3 := sub captchaKeywords (by intro k hk; simp [allKeywords, List.mem_append]; tauto)
    have m4 := sub noTicketKeywords (by intro k hk; simp [allKeywords, List.mem_append]; tauto)
    have m5 := sub seatKeywords (by intro k hk; simp [allKeywords, List.mem_append]; tauto)
    have m6 := sub passengerKeywords (by intro k hk; simp [allKeywords, List.mem_append]; tauto)
    have m7 := sub submitKeywords (by intro k hk; simp [allKeywords, List.mem_append]; tauto)
    have m8 := sub paymentKeywords (by intro k hk; simp [allKeywords, List.mem_append]; tauto)
    have m9 := sub systemKeywords (by intro k hk; simp [allKeywords, List.mem_append]; tauto)
    simp [analyze_error, m1, m2, m3, m4, m5, m6, m7, m8, m9]

/-- C6 witness: the fallback direction of the classifier theorem applied to a
concrete message containing no keyword. -/
theorem c6_witness : analyze_error "好的" = ErrorType.UNKNOWN_ERROR := by
  exact (c6_classifier.2.2 "好的").mpr (by decide)

/-! ## Claim C2 -/

/-- C2 counterexample: an attempt whose failure message classifies as
`LOGIN_ERROR` (the authentication category, in `should_retry`'s no-retry
list) does not send the task straight to FAILED: with `max_retries = 3` and
`attempt_count = 1 < 3`, the firing loop performs a second booking attempt
and, that attempt succeeding, completes the task. -/
theorem c2_counterexample :
    analyze_error "session expired, please login" = ErrorType.LOGIN_ERROR ∧
    ErrorType.LOGIN_ERROR ∈ noRetryTypes ∧
    should_retry 3 ErrorType.LOGIN_ERROR 1 = false ∧
    FireEvent.attempt 2 ∈ (fireLoop 3 0 [some "session expired, please login", none]).events ∧
    (fireLoop 3 0 [some "session expired, please login", none]).status = "completed" := by
  refine ⟨by decide, by decide, by decide, ?_, ?_⟩
  · simp [fireLoop, backoffBounds]
  · simp [fireLoop]

/-- C2 (amended): `ErrorHandler.should_retry` does refuse to retry the four
no-retry error types (LOGIN, CAPTCHA, PASSENGER, SYSTEM — the
authentication, verification-challenge, beneficiary-data and system
categories) regardless of how many attempts remain, but the firing-stage
retry loop never consults the error handler: after any failed attempt with
attempts remaining it performs the next booking attempt whatever the
failure message is. -/
theorem c2_loop_ignores_classifier :
    (∀ mrc rc, ∀ et ∈ noRetryTypes, should_retry mrc et rc = false) ∧
    (∀ mr rc msg o rest, rc + 1 < mr →
      FireEvent.attempt (rc + 2) ∈ (fireLoop mr rc (some msg :: o :: rest)).events) := by
  constructor
  · intro mrc rc et het
    fin_cases het <;> simp [should_retry, noRetryTypes]
  · intro mr rc msg o rest h
    have h1 : rc < mr := by omega
    have h2 : ¬ mr ≤ rc + 1 := by omega
    simp only [fireLoop, if_pos h1, if_neg h2]
    have h3 : rc + 1 < mr := h
    cases o with
    | none =>
      simp [fireLoop, if_pos h3]
    | some m =>
      by_cases h4 : mr ≤ rc + 1 + 1
      · simp [fireLoop, if_pos h3, if_pos h4]
      · simp [fireLoop, if_pos h3, if_neg h4]

/-- C2 witness: the amended theorem at concrete inputs — `should_retry`
refuses a SYSTEM_ERROR with 0 of 5 attempts used, and the loop performs
attempt 2 after a first failure with `max_retries = 3`. -/
theorem c2_witness :
    should_retry 5 ErrorType.SYSTEM_ERROR 0 = false ∧
    FireEvent.attempt 2 ∈ (fireLoop 3 0 [some "乘客信息错误", some "x"]).events := by
  exact ⟨c2_loop_ignores_classifier.1 5 0 ErrorType.SYSTEM_ERROR (by decide),
    c2_loop_ignores_classifier.2 3 0 "乘客信息错误" (some "x") [] (by omega)⟩

/-! ## Claim C4 -/

/-- A uniform sample with `u ∈ [0, 1]` stays within its bounds. -/
theorem uniformSample_mem (lo hi u : ℚ) (hle : lo ≤ hi) (hu0 : 0 ≤ u) (hu1 : u ≤ 1) :
    lo ≤ uniformSample lo hi u ∧ uniformSample lo hi u ≤ hi := by
  unfold uniformSample
  constructor
  · nlinarith
  · nlinarith

/-- C4: when the booking attempt numbered `rc + 1` fails with attempts
remaining, the loop emits exactly one `wait` whose uniformly sampled delay
lies in [0.1, 0.3] s (= [100, 300] ms) after attempt 1, in [0.2, 0.5] s
(= [200, 500] ms) after attempt 2, and in [0.5, 1.0] s (= [500, 1000] ms)
after attempt 3 or later, for every sample `u ∈ [0, 1]` fed to
`random.uniform`. -/
theorem c4_backoff_bounds (mr rc : Nat) (msg : String) (rest : List (Option String))
    (u : ℚ) (h : rc + 1 < mr) (hu0 : 0 ≤ u) (hu1 : u ≤ 1) :
    ∃ lo hi tail,
      (fireLoop mr rc (some msg :: rest)).events =
        FireEvent.attempt (rc + 1) :: FireEvent.refresh :: FireEvent.wait lo hi :: tail ∧
      (rc + 1 = 1 → 1/10 ≤ uniformSample lo hi u ∧ uniformSample lo hi u ≤ 3/10) ∧
      (rc + 1 = 2 → 1/5 ≤ uniformSample lo hi u ∧ uniformSample lo hi u ≤ 1/2) ∧
      (3 ≤ rc + 1 → 1/2 ≤ uniformSample lo hi u ∧ uniformSample lo hi u ≤ 1) := by
  have h1 : rc < mr := by omega
  have h2 : ¬ mr ≤ rc + 1 := by omega
  refine ⟨(backoffBounds (rc + 1)).1, (backoffBounds (rc + 1)).2,
    (fireLoop mr (rc + 1) rest).events, ?_, ?_, ?_, ?_⟩
  · simp only [fireLoop, if_pos h1, if_neg h2]
  · intro hrc
    have hb : backoffBounds (rc + 1) = (1/10, 3/10) := by rw [hrc]; rfl
    rw [hb]
    exact uniformSample_mem (1/10) (3/10) u (by norm_num) hu0 hu1
  · intro hrc
    have hb : backoffBounds (rc + 1) = (1/5, 1/2) := by rw [hrc]; rfl
    rw [hb]
    exact uniformSample_mem (1/5) (1/2) u (by norm_num) hu0 hu1
  · intro hrc
    have hb : backoffBounds (rc + 1) = (1/2, 1) := by
      unfold backoffBounds
      rw [if_neg (by omega), if_neg (by omega)]
    rw [hb]
    exact uniformSample_mem (1/2) 1 u (by norm_num) hu0 hu1

/-- C4 witness: the backoff theorem at a concrete failing first attempt with
sample u = 1/2. -/
theorem c4_witness :
    ∃ lo hi tail,
      (fireLoop 3 0 [some "无票"]).events =
        FireEvent.attempt 1 :: FireEvent.refresh :: FireEvent.wait lo hi :: tail ∧
      (0 + 1 = 1 → 1/10 ≤ uniformSample lo hi (1/2) ∧ uniformSample lo hi (1/2) ≤ 3/10) ∧
      (0 + 1 = 2 → 1/5 ≤ uniformSample lo hi (1/2) ∧ uniformSample lo hi (1/2) ≤ 1/2) ∧
      (3 ≤ 0 + 1 → 1/2 ≤ uniformSample lo hi (1/2) ∧ uniformSample lo hi (1/2) ≤ 1) := by
  exact c4_backoff_bounds 3 0 "无票" [] (1/2) (by omega) (by norm_num) (by norm_num)

/-! ## Claim C5 -/

/-- Generalized run of the firing loop on `k` failures followed by one
success, starting from any retry count with enough attempts left: the task
completes with result "success", the retry count advances by `k + 1`, and
the trace interleaves a refresh and a jittered wait between every two
consecutive attempts. -/
theorem fireLoop_fails_then_succeeds (msgs : List String) :
    ∀ (mr rc : Nat), rc + msgs.length < mr →
      fireLoop mr rc (msgs.map some ++ [none]) =
        ⟨"completed", some "success", "", rc + msgs.length + 1, retryTrace rc msgs.length⟩ := by
  induction msgs with
  | nil =>
    intro mr rc h
    simp only [List.map_nil, List.nil_append, List.length_nil]
    have h1 : rc < mr := by omega
    simp [fireLoop, if_pos h1, retryTrace]
  | cons m ms ih =>
    intro mr rc h
    simp only [List.map_cons, List.cons_append, List.length_cons]
    have h1 : rc < mr := by
      simp only [List.length_cons] at h
      omega
    have h2 : ¬ mr ≤ rc + 1 := by
      simp only [List.length_cons] at h
      omega
    have h3 : rc + 1 + ms.length < mr := by
      simp only [List.length_cons] at h
      omega
    simp only [fireLoop, if_pos h1, if_neg h2, ih mr (rc + 1) h3]
    simp only [List.length_cons, retryTrace]
    congr 1
    omega

/-- C5: for every failure prefix, when the first `k` booking attempts fail
and attempt `k + 1` succeeds within `max_retries`, the firing loop re-runs
the inventory refresh (`search_tickets`) between every two consecutive
attempts — the trace is exactly attempt 1, refresh, wait, attempt 2, …,
attempt k+1 (see `retryTrace`) — and the task ends "completed" with result
"success" and `retry_count` equal to the number `k + 1` of attempts made. -/
theorem c5_revalidation_between_attempts (mr : Nat) (msgs : List String)
    (h : msgs.length < mr) :
    fireLoop mr 0 (msgs.map some ++ [none]) =
      ⟨"completed", some "success", "", msgs.length + 1, retryTrace 0 msgs.length⟩ := by
  have := fireLoop_fails_then_succeeds msgs mr 0 (by omega)
  simpa using this

/-- C5 witness: the spec scenario — `max_retries = 3`, the attempt fails
twice (item unavailable) and succeeds on attempt 3; the task ends completed
with `retry_count = 3`, with a refresh (and a jittered wait) between
attempts 1 and 2 and between attempts 2 and 3. -/
theorem c5_witness :
    fireLoop 3 0 ([ "无票", "无票" ].map some ++ [none]) =
      ⟨"completed", some "success", "", 2 + 1,
        [FireEvent.attempt 1, FireEvent.refresh, FireEvent.wait (1/10) (3/10),
         FireEvent.attempt 2, FireEvent.refresh, FireEvent.wait (1/5) (1/2),
         FireEvent.attempt 3]⟩ := by
  have h := c5_revalidation_between_attempts 3 ["无票", "无票"] (by norm_num)
  simpa [retryTrace, backoffBounds] using h

/-! ## Claim C3 -/

/-- For a modulus `n ≥ 1`, Python's `r % n < 1` (on nonnegative floats,
`r % n = r - n * ⌊r / n⌋`) holds exactly when `r` lies within 1 of an
integer multiple of `n` from above. -/
theorem mod_lt_one_iff (n : ℚ) (hn : 1 ≤ n) (r : ℚ) :
    r - n * (⌊r / n⌋ : ℤ) < 1 ↔ ∃ k : ℤ, n * k ≤ r ∧ r < n * k + 1 := by
  have hn0 : 0 < n := by linarith
  constructor
  · intro h
    refine ⟨⌊r / n⌋, ?_, ?_⟩
    · have hf : (⌊r / n⌋ : ℚ) ≤ r / n := Int.floor_le (r / n)
      calc n * (⌊r / n⌋ : ℚ) ≤ n * (r / n) := by
            exact mul_le_mul_of_nonneg_left hf (le_of_lt hn0)
        _ = r := by field_simp
    · linarith
  · rintro ⟨k, hk1, hk2⟩
    have hfl : ⌊r / n⌋ = k := by
      rw [Int.floor_eq_iff]
      constructor
      · rw [le_div_iff₀ hn0]
        linarith [mul_comm n (k : ℚ)]
      · rw [div_lt_iff₀ hn0]
        have h1n : 1 / n ≤ 1 := by
          rw [div_le_one hn0]; exact hn
        have : ((k : ℚ) + 1) * n = n * k + n := by ring
        rw [this]
        linarith
    rw [hfl]
    linarith

/-- C3 counterexample: at remaining time 5 s (which is ≤ 10 s), the pre-warm
monitoring iteration still issues an inventory refresh, contradicting
"issues no further refreshes at all once remaining ≤ 10 s". -/
theorem c3_counterexample :
    (5 : ℚ) ≤ 10 ∧ (monitorStep 5).refreshes = true := by
  constructor
  · norm_num
  · norm_num [monitorStep]

/-- C3 (amended): the pre-warm iteration refreshes at the tiered cadence —
every 30 s while remaining > 120 s, every 15 s for 60 s < remaining ≤
120 s, every 5 s for 10 s < remaining ≤ 60 s (a refresh fires exactly when
the remaining time is within 1 s above a multiple of the tier's period); in
the final 10 s it keeps refreshing on every iteration while remaining >
3 s, and only once remaining ≤ 3 s does it stop refreshing, polling with
0.01 s (10 ms) sleeps as the remaining time approaches 0. -/
theorem c3_cadence (r : ℚ) :
    (120 < r → ((monitorStep r).refreshes = true ↔ ∃ k : ℤ, 30 * k ≤ r ∧ r < 30 * k + 1)) ∧
    (60 < r → r ≤ 120 →
      ((monitorStep r).refreshes = true ↔ ∃ k : ℤ, 15 * k ≤ r ∧ r < 15 * k + 1)) ∧
    (10 < r → r ≤ 60 →
      ((monitorStep r).refreshes = true ↔ ∃ k : ℤ, 5 * k ≤ r ∧ r < 5 * k + 1)) ∧
    (3 < r → r ≤ 10 → (monitorStep r).refreshes = true) ∧
    (r ≤ 3 → (monitorStep r).refreshes = false ∧ (monitorStep r).sleep = 1/100) := by
  refine ⟨fun h120 => ?_, fun h60 h120 => ?_, fun h10 h60 => ?_, fun h3 h10 => ?_,
    fun h3 => ?_⟩
  · rw [monitorStep, if_pos h120]
    simp only [decide_eq_true_eq]
    exact mod_lt_one_iff 30 (by norm_num) r
  · rw [monitorStep, if_neg (not_lt.mpr h120), if_pos h60]
    simp only [decide_eq_true_eq]
    exact mod_lt_one_iff 15 (by norm_num) r
  · rw [monitorStep, if_neg (not_lt.mpr h60), if_neg (by linarith), if_pos h10]
    simp only [decide_eq_true_eq]
    exact mod_lt_one_iff 5 (by norm_num) r
  · rw [monitorStep, if_neg (by linarith), if_neg (by linarith), if_neg (not_lt.mpr h10),
      if_pos h3]
  · rw [monitorStep, if_neg (by linarith), if_neg (by linarith), if_neg (by linarith),
      if_neg (not_lt.mpr h3)]
    exact ⟨rfl, rfl⟩

/-- C3 witness: at remaining time 150 s (a multiple of 30), the 30-second
tier fires a refresh. -/
theorem c3_witness : (monitorStep 150).refreshes = true := by
  exact ((c3_cadence 150).1 (by norm_num)).mpr ⟨5, by norm_num, by norm_num⟩

/-! ## Claim C9 -/

/-- Seat types deserialize back from their serialized value. -/
theorem seatType_roundtrip (st : SeatType) : SeatType.fromValue st.value = some st := by
  cases st <;> rfl

/-- Bunk types deserialize back from their serialized value. -/
theorem bunkType_roundtrip (bt : BunkType) : BunkType.fromValue bt.value = some bt := by
  cases bt <;> rfl

/-- A ticket passenger with a non-blank name, passenger type and ticket type
(the invariants `__post_init__` establishes at construction) survives the
dict roundtrip unchanged. -/
theorem ticketPassenger_roundtrip (tp : TicketPassenger)
    (hn : isBlank tp.passenger.name = false)
    (hp : isBlank tp.passenger.passenger_type = false)
    (ht : isBlank tp.ticket_type = false) :
    TicketPassenger.from_dict tp.to_dict = some tp := by
  obtain ⟨⟨pn, pid, ptype⟩, st, bt, tt⟩ := tp
  simp only at hn hp ht
  unfold TicketPassenger.from_dict TicketPassenger.to_dict
  cases bt with
  | none =>
    simp [Passenger.make, hn, hp, seatType_roundtrip, TicketPassenger.make, ht]
  | some b =>
    simp [Passenger.make, hn, hp, seatType_roundtrip, bunkType_roundtrip,
      TicketPassenger.make, ht]

/-- A list of valid ticket passengers survives the dict roundtrip. -/
theorem ticketPassengers_roundtrip (l : List TicketPassenger)
    (hv : ∀ tp ∈ l, isBlank tp.passenger.name = false ∧
      isBlank tp.passenger.passenger_type = false ∧ isBlank tp.ticket_type = false) :
    (l.map TicketPassenger.to_dict).mapM TicketPassenger.from_dict = some l := by
  induction l with
  | nil => rfl
  | cons tp tps ih =>
    obtain ⟨hn, hp, ht⟩ := hv tp (List.mem_cons_self tp tps)
    have htl := ih fun x hx => hv x (List.mem_cons_of_mem tp hx)
    simp only [List.map_cons, List.mapM_cons, ticketPassenger_roundtrip tp hn hp ht, htl,
      Option.bind_eq_bind, Option.some_bind, Option.map_some]
    rfl

/-- A ticket info whose passengers satisfy the construction invariants
survives the dict roundtrip. -/
theorem ticketInfo_roundtrip (ti : TicketInfo)
    (hv : ∀ tp ∈ ti.ticket_passengers, isBlank tp.passenger.name = false ∧
      isBlank tp.passenger.passenger_type = false ∧ isBlank tp.ticket_type = false) :
    TicketInfo.from_dict ti.to_dict = some ti := by
  unfold TicketInfo.from_dict TicketInfo.to_dict
  simp only [ticketPassengers_roundtrip ti.ticket_passengers hv, Option.bind_eq_bind,
    Option.some_bind, TrainInfo.from_dict, TrainInfo.to_dict]

/-- C9: every task whose derived `pre_search_start_time` carries the fixed
5-minute lead (as the constructor always sets it) and whose passengers
satisfy the data-model invariants (non-blank name, passenger type and
ticket type, as `__post_init__` enforces) is reproduced exactly — every
field: request, release time, retry bound, priority, creation time, state,
error message, retry count, result, and the two one-shot phase flags — by
serializing with `to_dict` and deserializing with `from_dict`, whatever
current time the deserializing process runs at. -/
theorem c9_task_roundtrip (t : BookingTask) (now : Int)
    (hpre : t.pre_search_start_time = t.start_time - minutes5)
    (hv : ∀ tp ∈ t.ticket_info.ticket_passengers, isBlank tp.passenger.name = false ∧
      isBlank tp.passenger.passenger_type = false ∧ isBlank tp.ticket_type = false) :
    BookingTask.from_dict t.to_dict now = some t := by
  unfold BookingTask.from_dict BookingTask.to_dict
  simp only [ticketInfo_roundtrip t.ticket_info hv, Option.bind_eq_bind, Option.some_bind,
    BookingTask.init]
  rw [← hpre]

/-- C9 witness: the roundtrip theorem at a concrete freshly created task,
deserialized at a different current time. -/
theorem c9_witness : BookingTask.from_dict sampleTask.to_dict 999 = some sampleTask := by
  exact c9_task_roundtrip sampleTask 999 rfl (by decide)
